import Mathlib

/-!
Verification of the NEG syncer control loop (`pkg/neg/syncers/syncer.go`).

The Go `syncer` struct is embedded as a Lean structure `Syncers.Syncer`; its
methods (`Start`, `Stop`, `Sync`, `IsStopped`, `IsShuttingDown`, `SetSyncFunc`,
`init`) become pure functions on that structure.  The background loop spawned
by `Start` is split into its two phases:

* `loopIteration` — one pass of the loop body (lines 84-100 of the source):
  call `syncFunc`, consult the backoff handler on failure, arm (or not) a
  retry timer, and possibly emit a warning event.  The service lookup
  (`getService`, defined outside the given sources) is abstracted by a
  boolean parameter `serviceFound`; the event recorder is abstracted by
  recording the event that would be emitted in the returned `LoopEffects`.
* `loopRecv` — the `select` wait point's signal-channel case
  (`_, open := <-s.syncCh`), including the terminal transition taken when the
  channel is observed closed.  The retry-timer case of the `select` changes
  no syncer state and therefore needs no transition of its own.

The capacity-1 Go channel `chan interface{}` is modelled by `SyncCh`:
a capacity, a closed flag and a count of buffered signals.  A nil channel is
`Option.none`.  A Go send on a closed channel panics; `Sync`'s outcome type
has an explicit `panicked` constructor for that case (proved unreachable from
reachable states).  `Stop`'s `close(s.syncCh)` is modelled with `Option.map`;
a nil or already-closed channel there would panic in Go, and the reachability
invariant shows `stopped = false` implies the channel is non-nil and open, so
the totalization is never exercised.

Two ghost fields extend the struct: `loopRunning` records whether the
background goroutine spawned by `Start` is still executing (true from the
`go func()` until the loop's `return`), and `everStarted` records whether
`Start` ever succeeded.  Neither influences any operation's behaviour.
-/

namespace Syncers

/-- The service-port identity carried by a syncer (`NegSyncerKey`, defined
elsewhere in the package; only its namespace/name, used for the service
lookup, matter here). -/
structure NegSyncerKey where
  ns : String
  name : String
deriving DecidableEq

/-- A Go buffered channel of unit signals: capacity, closed flag, and the
number of buffered, not-yet-received signals. -/
structure SyncCh where
  cap : Nat
  closed : Bool
  pending : Nat
deriving DecidableEq

/-- Modelled from the spec: the exponential backoff handler
(`ExponentialBackendOffHandler`, file `backoff.go`, not among the given
sources).  Parameters are immutable; `retryCount` is the mutable attempt
counter. -/
structure ExponentialBackendOffHandler where
  minRetryDelay : Nat
  maxRetryDelay : Nat
  maxRetries : Nat
  retryCount : Nat
deriving DecidableEq

/-- Modelled from the spec: constructor of the backoff handler with attempt
counter 0. -/
def NewExponentialBackendOffHandler (maxRetries minDelay maxDelay : Nat) :
    ExponentialBackendOffHandler :=
  { minRetryDelay := minDelay
    maxRetryDelay := maxDelay
    maxRetries := maxRetries
    retryCount := 0 }

/-- Modelled from the spec: `NextRetryDelay()` returns a delay and increments
the attempt counter; once the counter would exceed the maximum it instead
reports exhaustion (`ErrRetriesExceeded`, encoded as the `Bool` being `true`)
and does not increment.  The delay grows exponentially from the minimum,
clamped to the maximum. -/
def NextRetryDelay (b : ExponentialBackendOffHandler) :
    (Nat × Bool) × ExponentialBackendOffHandler :=
  if b.maxRetries ≤ b.retryCount then ((0, true), b)
  else ((min (b.minRetryDelay * 2 ^ b.retryCount) b.maxRetryDelay, false),
        { b with retryCount := b.retryCount + 1 })

/-- Modelled from the spec: `ResetRetryDelay()` sets the attempt counter to 0
unconditionally. -/
def ResetRetryDelay (b : ExponentialBackendOffHandler) :
    ExponentialBackendOffHandler :=
  { b with retryCount := 0 }

/-- Retry-policy constants (declared elsewhere in the package, not among the
given sources; the concrete values are immaterial to every claim proved
below). -/
def maxRetries : Nat := 15

/-- Minimum retry delay constant (see `maxRetries`). -/
def minRetryDelay : Nat := 5

/-- Maximum retry delay constant (see `maxRetries`). -/
def maxRetryDelay : Nat := 600

/-- The `syncer` struct.  `serviceLister` and `recorder` are external
collaborators (a lookup and a sink); they carry no state the claims mention
and are abstracted at `loopIteration`'s interface.  `clock` is likewise
abstracted: arming a timer is recorded as an effect.  `loopRunning` and
`everStarted` are ghost fields (see the module comment). -/
structure Syncer where
  key : NegSyncerKey
  negName : String
  syncFunc : Unit → Option String
  stopped : Bool
  shuttingDown : Bool
  syncCh : Option SyncCh
  backoff : ExponentialBackendOffHandler
  loopRunning : Bool
  everStarted : Bool

/-- Constructor `newSyncer`: default `syncFunc` returns nil, `stopped=true`,
`shuttingDown=false`, channel field left at its zero value (nil). -/
def newSyncer (negSyncerKey : NegSyncerKey) (networkEndpointGroupName : String) : Syncer :=
  { key := negSyncerKey
    negName := networkEndpointGroupName
    syncFunc := fun _ => none
    stopped := true
    shuttingDown := false
    syncCh := none
    backoff := NewExponentialBackendOffHandler maxRetries minRetryDelay maxRetryDelay
    loopRunning := false
    everStarted := false }

/-- Method `IsStopped()`: read of `stopped` under the state mutex. -/
def IsStopped (s : Syncer) : Bool := s.stopped

/-- Method `IsShuttingDown()`: read of `shuttingDown` under the state mutex. -/
def IsShuttingDown (s : Syncer) : Bool := s.shuttingDown

/-- The two failure conditions `Start` can report. -/
inductive StartError where
  | alreadyRunning
  | shuttingDown
deriving DecidableEq

/-- Method `init()`: sets `stopped = false` and allocates a fresh capacity-1
channel. -/
def init (s : Syncer) : Syncer :=
  { s with stopped := false
           syncCh := some { cap := 1, closed := false, pending := 0 } }

/-- Method `Start()`: rejects a running (`!IsStopped`) or shutting-down syncer,
otherwise runs `init` and spawns the loop goroutine (ghost:
`loopRunning := true`, `everStarted := true`). -/
def Start (s : Syncer) : Option StartError × Syncer :=
  if !(IsStopped s) then (some .alreadyRunning, s)
  else if IsShuttingDown s then (some .shuttingDown, s)
  else (none, { init s with loopRunning := true, everStarted := true })

/-- Method `Stop()`: no-op when already stopped; otherwise sets both flags and
closes the channel (`Option.map`: see the module comment on totalization). -/
def Stop (s : Syncer) : Syncer :=
  if !s.stopped then
    { s with stopped := true
             shuttingDown := true
             syncCh := s.syncCh.map fun ch => { ch with closed := true } }
  else s

/-- Outcome of `Sync()`: a returned boolean, or a Go panic (send on a closed
channel). -/
inductive SyncOutcome where
  | ret (b : Bool)
  | panicked
deriving DecidableEq

/-- Method `Sync()`: returns false when stopped; otherwise a `select` with a
`default` clause attempts a non-blocking send.  A nil channel's send case is
never ready, so the `default` returns false; a closed channel's send case is
ready and panics; an open channel succeeds exactly when a buffer slot is
free. -/
def Sync (s : Syncer) : SyncOutcome × Syncer :=
  if IsStopped s then (.ret false, s)
  else
    match s.syncCh with
    | none => (.ret false, s)
    | some ch =>
      if ch.closed then (.panicked, s)
      else if ch.pending < ch.cap then
        (.ret true, { s with syncCh := some { ch with pending := ch.pending + 1 } })
      else (.ret false, s)

/-- Method `SetSyncFunc()`: unconditionally overwrites the `syncFunc` field. -/
def SetSyncFunc (s : Syncer) (syncFunc : Unit → Option String) : Syncer :=
  { s with syncFunc := syncFunc }

/-- An event as passed to `recorder.Eventf` by the loop: event type, reason,
and the message's variable parts (NEG name, retry disposition, error). -/
structure EmittedEvent where
  eventtype : String
  reason : String
  negName : String
  retryMesg : String
  err : String
deriving DecidableEq

/-- The loop-local effects of one pass of the loop body: the retry trigger
(`none` = the initial "never fires" channel was kept, `some d` =
`clock.After delay` was armed), the `retryMesg` marker, and the event handed
to the recorder (`none` when the service lookup missed or the sync
succeeded). -/
structure LoopEffects where
  retryTimer : Option Nat
  retryMesg : String
  event : Option EmittedEvent
deriving DecidableEq

/-- One pass of the loop body (source lines 84-100): invoke `syncFunc`; on
failure ask the backoff for the next delay, keep the never-fires trigger and
mark "(will not retry)" when retries are exhausted, else arm the timer and
mark "(will retry)", then emit a warning event iff `getService` finds the
owning service (`serviceFound`); on success reset the backoff.  Returns the
effects and the syncer with its updated backoff state. -/
def loopIteration (s : Syncer) (serviceFound : Bool) : LoopEffects × Syncer :=
  match s.syncFunc () with
  | some err =>
    let r := NextRetryDelay s.backoff
    let retryMesg := if r.1.2 then "(will not retry)" else "(will retry)"
    let retryTimer : Option Nat := if r.1.2 then none else some r.1.1
    let event : Option EmittedEvent :=
      if serviceFound then
        some { eventtype := "Warning"
               reason := "SyncNetworkEndpointGroupFailed"
               negName := s.negName
               retryMesg := retryMesg
               err := err }
      else none
    ({ retryTimer := retryTimer, retryMesg := retryMesg, event := event },
     { s with backoff := r.2 })
  | none =>
    ({ retryTimer := none, retryMesg := "", event := none },
     { s with backoff := ResetRetryDelay s.backoff })

/-- Whether the signal-channel receive case of the loop's `select` is ready:
a buffered signal can be taken, or the channel is closed. -/
def chRecvReady (s : Syncer) : Bool :=
  match s.syncCh with
  | none => false
  | some ch => 0 < ch.pending || ch.closed

/-- The signal-channel case of the loop's wait point
(`case _, open := <-s.syncCh`).  Returns the received `open` flag and the
resulting state: a buffered signal is consumed with `open = true` (also from
a closed channel, until drained); a drained closed channel yields
`open = false` and the loop's terminal transition (`shuttingDown := false`,
return — ghost: `loopRunning := false`).  A nil or non-ready channel would
block; those cases (identity here) are excluded by `chRecvReady` wherever
this models an actual wake. -/
def loopRecv (s : Syncer) : Bool × Syncer :=
  match s.syncCh with
  | none => (true, s)
  | some ch =>
    if 0 < ch.pending then
      (true, { s with syncCh := some { ch with pending := ch.pending - 1 } })
    else if ch.closed then
      (false, { s with shuttingDown := false, loopRunning := false })
    else (true, s)

/-- The states a syncer can reach, sequentially, from construction via its
public methods and the two state-changing steps of its background loop.  The
loop steps are guarded by the ghost `loopRunning` flag and, for the wait
point, by readiness of the channel case. -/
inductive Reachable : Syncer → Prop where
  | new (key : NegSyncerKey) (negName : String) : Reachable (newSyncer key negName)
  | start {s : Syncer} : Reachable s → Reachable (Start s).2
  | stop {s : Syncer} : Reachable s → Reachable (Stop s)
  | sync {s : Syncer} : Reachable s → Reachable (Sync s).2
  | set {s : Syncer} (f : Unit → Option String) : Reachable s → Reachable (SetSyncFunc s f)
  | iter {s : Syncer} (found : Bool) : Reachable s → s.loopRunning = true →
      Reachable (loopIteration s found).2
  | recv {s : Syncer} : Reachable s → s.loopRunning = true → chRecvReady s = true →
      Reachable (loopRecv s).2

/-- The closed flag of an optional channel (`false` for nil). -/
def chClosed : Option SyncCh → Bool
  | none => false
  | some ch => ch.closed

/-- The capacity of an optional channel (vacuously 1 for nil). -/
def chCap : Option SyncCh → Nat
  | none => 1
  | some ch => ch.cap

/-- The number of buffered signals of an optional channel (0 for nil). -/
def chPending : Option SyncCh → Nat
  | none => 0
  | some ch => ch.pending

/-- The state invariant maintained by every reachable syncer: shutting down
implies stopped and a still-running loop; not stopped implies a running loop
and a non-nil open channel; a running loop implies a non-nil channel; the
channel has capacity 1 and at most one buffered signal; and the channel is
non-nil exactly when `Start` has ever succeeded. -/
def Inv (s : Syncer) : Prop :=
  (s.shuttingDown = true → s.stopped = true) ∧
  (s.shuttingDown = true → s.loopRunning = true) ∧
  (s.stopped = false →
    s.loopRunning = true ∧ s.syncCh.isSome = true ∧ chClosed s.syncCh = false) ∧
  (s.loopRunning = true → s.syncCh.isSome = true) ∧
  chCap s.syncCh = 1 ∧
  chPending s.syncCh ≤ 1 ∧
  s.syncCh.isSome = s.everStarted

theorem inv_newSyncer (key : NegSyncerKey) (negName : String) :
    Inv (newSyncer key negName) := by
  refine ⟨?_, ?_, ?_, ?_, ?_, ?_, ?_⟩ <;> simp [newSyncer, chCap, chPending]

theorem inv_start {s : Syncer} (h : Inv s) : Inv (Start s).2 := by
  obtain ⟨h1, h2, h3, h4, h5, h6, h7⟩ := h
  simp only [Start, IsStopped, IsShuttingDown, init]
  split
  · exact ⟨h1, h2, h3, h4, h5, h6, h7⟩
  · split
    · exact ⟨h1, h2, h3, h4, h5, h6, h7⟩
    · rename_i hns hsd
      have hsd' : s.shuttingDown = false := by simpa using hsd
      refine ⟨?_, ?_, ?_, ?_, ?_, ?_, ?_⟩ <;>
        simp [chClosed, chCap, chPending, hsd']

theorem inv_stop {s : Syncer} (h : Inv s) : Inv (Stop s) := by
  obtain ⟨h1, h2, h3, h4, h5, h6, h7⟩ := h
  simp only [Stop]
  split
  · rename_i hns
    have hs : s.stopped = false := by simpa using hns
    obtain ⟨hlr, hsome, _⟩ := h3 hs
    cases hch : s.syncCh with
    | none => simp [hch] at hsome
    | some ch =>
      have hcap : ch.cap = 1 := by simpa [chCap, hch] using h5
      have hpend : ch.pending ≤ 1 := by simpa [chPending, hch] using h6
      have hev : s.everStarted = true := by simpa [hch] using h7
      refine ⟨fun _ => rfl, fun _ => hlr, fun hc => by simp at hc, fun _ => ?_,
              ?_, ?_, ?_⟩ <;>
        simp [hch, chCap, chPending, hcap, hpend, hev]
  · exact ⟨h1, h2, h3, h4, h5, h6, h7⟩

theorem inv_sync {s : Syncer} (h : Inv s) : Inv (Sync s).2 := by
  obtain ⟨h1, h2, h3, h4, h5, h6, h7⟩ := h
  simp only [Sync, IsStopped]
  split
  · exact ⟨h1, h2, h3, h4, h5, h6, h7⟩
  · cases hch : s.syncCh with
    | none => exact ⟨h1, h2, h3, h4, h5, h6, h7⟩
    | some ch =>
      simp only
      split
      · exact ⟨h1, h2, h3, h4, h5, h6, h7⟩
      · split
        · rename_i hlt
          have hcap : ch.cap = 1 := by simpa [chCap, hch] using h5
          refine ⟨h1, h2, fun hs => ?_, fun _ => rfl, by simp [chCap, hcap], ?_, ?_⟩
          · obtain ⟨hlr, _, hopen⟩ := h3 hs
            exact ⟨hlr, rfl, by simpa [chClosed, hch] using hopen⟩
          · simp only [chPending]
            omega
          · simpa [hch] using h7
        · exact ⟨h1, h2, h3, h4, h5, h6, h7⟩

theorem inv_set {s : Syncer} (f : Unit → Option String) (h : Inv s) :
    Inv (SetSyncFunc s f) := by
  obtain ⟨h1, h2, h3, h4, h5, h6, h7⟩ := h
  exact ⟨h1, h2, h3, h4, h5, h6, h7⟩

theorem inv_iter {s : Syncer} (found : Bool) (h : Inv s) :
    Inv (loopIteration s found).2 := by
  obtain ⟨h1, h2, h3, h4, h5, h6, h7⟩ := h
  simp only [loopIteration]
  cases hsf : s.syncFunc () <;> exact ⟨h1, h2, h3, h4, h5, h6, h7⟩

theorem inv_recv {s : Syncer} (h : Inv s) : Inv (loopRecv s).2 := by
  obtain ⟨h1, h2, h3, h4, h5, h6, h7⟩ := h
  simp only [loopRecv]
  cases hch : s.syncCh with
  | none => exact ⟨h1, h2, h3, h4, h5, h6, h7⟩
  | some ch =>
    have hcap : ch.cap = 1 := by simpa [chCap, hch] using h5
    have hpend : ch.pending ≤ 1 := by simpa [chPending, hch] using h6
    have hev : s.everStarted = true := by simpa [hch] using h7
    simp only
    split
    · refine ⟨h1, h2, fun hs => ?_, fun _ => rfl, by simp [chCap, hcap], ?_, ?_⟩
      · obtain ⟨hlr, _, hopen⟩ := h3 hs
        exact ⟨hlr, rfl, by simpa [chClosed, hch] using hopen⟩
      · simp only [chPending]
        omega
      · simpa using hev
    · split
      · rename_i hnp hc
        have hs : s.stopped = true := by
          by_contra hsf
          have hs' : s.stopped = false := by simpa using hsf
          obtain ⟨_, _, hopen⟩ := h3 hs'
          simp [chClosed, hch, hc] at hopen
        dsimp only
        refine ⟨fun hc' => by simp at hc', fun hc' => by simp at hc',
                fun hs' => by simp [hs] at hs', fun hl => by simp at hl,
                by simpa [chCap] using hcap, by simpa [chPending] using hpend,
                by simpa using hev⟩
      · exact ⟨h1, h2, h3, h4, h5, h6, h7⟩

/-- Every reachable syncer state satisfies the invariant. -/
theorem reachable_inv {s : Syncer} (h : Reachable s) : Inv s := by
  induction h with
  | new key negName => exact inv_newSyncer key negName
  | start _ ih => exact inv_start ih
  | stop _ ih => exact inv_stop ih
  | sync _ ih => exact inv_sync ih
  | set f _ ih => exact inv_set f ih
  | iter found _ _ ih => exact inv_iter found ih
  | recv _ _ _ ih => exact inv_recv ih

/-- A concrete syncer identity used for witnesses. -/
def exKey : NegSyncerKey := { ns := "default", name := "svc" }

/-- A freshly constructed syncer. -/
def ex0 : Syncer := newSyncer exKey "neg1"

/-- A running syncer: `Start` succeeded on `ex0`. -/
def ex1 : Syncer := (Start ex0).2

/-- A running syncer with one buffered signal: `Sync` succeeded on `ex1`. -/
def ex2 : Syncer := (Sync ex1).2

/-- Stopped while a signal was still buffered. -/
def ex3 : Syncer := Stop ex2

/-- Stopped with an empty buffer. -/
def ex4 : Syncer := Stop ex1

/-- Fully stopped and exited: the loop observed the closed channel. -/
def ex5 : Syncer := (loopRecv ex4).2

theorem ex0_reachable : Reachable ex0 := Reachable.new exKey "neg1"

theorem ex1_reachable : Reachable ex1 := Reachable.start ex0_reachable

theorem ex2_reachable : Reachable ex2 := Reachable.sync ex1_reachable

theorem ex3_reachable : Reachable ex3 := Reachable.stop ex2_reachable

theorem ex4_reachable : Reachable ex4 := Reachable.stop ex1_reachable

theorem ex5_reachable : Reachable ex5 := Reachable.recv ex4_reachable rfl rfl

/-- C1: `Sync()` on a stopped syncer returns `false` with the state (hence
the signal buffer) unchanged, so the sync function runs zero additional
times on its account; on a running syncer it performs a non-blocking enqueue
on the capacity-1 signal channel, returning `true` exactly when the buffer
was empty and `false` when a signal is already pending (coalescing). -/
theorem sync_coalesces (s : Syncer) (h : Reachable s) :
    (s.stopped = true → Sync s = (.ret false, s)) ∧
    (s.stopped = false →
      ∃ ch, s.syncCh = some ch ∧ ch.closed = false ∧ ch.cap = 1 ∧
        (ch.pending = 0 →
          Sync s = (.ret true, { s with syncCh := some { ch with pending := 1 } })) ∧
        (ch.pending ≠ 0 → Sync s = (.ret false, s))) := by
  obtain ⟨h1, h2, h3, h4, h5, h6, h7⟩ := reachable_inv h
  constructor
  · intro hs
    simp [Sync, IsStopped, hs]
  · intro hs
    obtain ⟨hlr, hsome, hopen⟩ := h3 hs
    cases hch : s.syncCh with
    | none => simp [hch] at hsome
    | some ch =>
      have hcl : ch.closed = false := by simpa [chClosed, hch] using hopen
      have hcap : ch.cap = 1 := by simpa [chCap, hch] using h5
      refine ⟨ch, rfl, hcl, hcap, fun hp => ?_, fun hp => ?_⟩
      · simp [Sync, IsStopped, hs, hch, hcl, hcap, hp]
      · have hge : ¬ ch.pending < ch.cap := by omega
        simp [Sync, IsStopped, hs, hch, hcl, hge]

/-- C1 witness: on the concrete stopped syncer `ex0`, `Sync` returns false
and changes nothing; on the concrete running syncer `ex1` with empty buffer,
`Sync` returns true. -/
theorem sync_coalesces_witness :
    Sync ex0 = (.ret false, ex0) ∧ (Sync ex1).1 = .ret true := by
  constructor
  · exact (sync_coalesces ex0 ex0_reachable).1 rfl
  · obtain ⟨ch, hch, -, -, hp, -⟩ := (sync_coalesces ex1 ex1_reachable).2 rfl
    have h0 : ch.pending = 0 := by
      have : some ch = some { cap := 1, closed := false, pending := 0 } := by
        rw [← hch]; rfl
      cases this
      rfl
    rw [hp h0]

/-- C2: `Start()` on a running syncer (`stopped=false`) fails with the
"already running" error, and on a stopped, shutting-down syncer fails with
the "shutting down" error; in both cases the returned state is the input
state itself, so no field (stopped, shuttingDown, syncCh, backoff, syncFunc)
changes. -/
theorem start_failures (s : Syncer) :
    (s.stopped = false → Start s = (some .alreadyRunning, s)) ∧
    (s.stopped = true → s.shuttingDown = true → Start s = (some .shuttingDown, s)) := by
  constructor
  · intro hs
    simp [Start, IsStopped, hs]
  · intro hs hsd
    simp [Start, IsStopped, IsShuttingDown, hs, hsd]

/-- C2 witness: the concrete running syncer `ex1` and the concrete
shutting-down syncer `ex3`. -/
theorem start_failures_witness :
    Start ex1 = (some .alreadyRunning, ex1) ∧ Start ex3 = (some .shuttingDown, ex3) :=
  ⟨(start_failures ex1).1 rfl, (start_failures ex3).2 rfl rfl⟩

/-- C3: from Idle (`stopped=true`, `shuttingDown=false`), `Start()` returns
nil, sets `stopped=false`, allocates a fresh open empty channel of capacity
1, spawns the background loop, and a second `Start()` before a completed
stop returns the "already running" error rather than being a no-op. -/
theorem start_from_idle (s : Syncer) (hs : s.stopped = true) (hsd : s.shuttingDown = false) :
    (Start s).1 = none ∧
    (Start s).2.stopped = false ∧
    (Start s).2.syncCh = some { cap := 1, closed := false, pending := 0 } ∧
    (Start s).2.loopRunning = true ∧
    (Start (Start s).2).1 = some .alreadyRunning := by
  simp [Start, IsStopped, IsShuttingDown, init, hs, hsd]

/-- C3 witness: `Start` on the concrete fresh syncer `ex0`. -/
theorem start_from_idle_witness :
    (Start ex0).1 = none ∧ (Start (Start ex0).2).1 = some .alreadyRunning :=
  ⟨(start_from_idle ex0 rfl rfl).1, (start_from_idle ex0 rfl rfl).2.2.2.2⟩

/-- C4: `Stop()` is idempotent: on an already-stopped syncer it is the
identity; otherwise it sets `stopped=true` and `shuttingDown=true` and
closes the signal channel; and `Stop (Stop s) = Stop s` for every state. -/
theorem stop_idempotent (s : Syncer) :
    (s.stopped = true → Stop s = s) ∧
    (s.stopped = false →
      Stop s = { s with stopped := true, shuttingDown := true,
                        syncCh := s.syncCh.map (fun ch => { ch with closed := true }) }) ∧
    Stop (Stop s) = Stop s := by
  refine ⟨fun hs => by simp [Stop, hs], fun hs => by simp [Stop, hs], ?_⟩
  cases hs : s.stopped with
  | true => simp [Stop, hs]
  | false =>
    simp only [Stop, hs, Bool.not_false, if_true]
    simp

/-- C4 witness: stopping the concrete running syncer `ex1` twice equals
stopping it once, and `Stop` on the already-stopped `ex0` is the
identity. -/
theorem stop_idempotent_witness :
    Stop (Stop ex1) = Stop ex1 ∧ Stop ex0 = ex0 :=
  ⟨(stop_idempotent ex1).2.2, (stop_idempotent ex0).1 rfl⟩

/-- C5: in a loop-body pass whose sync fails, exhausted retries
(`NextRetryDelay`'s error, i.e. its `Bool` being `true`) keep the never-fires
trigger and mark "(will not retry)"; remaining retries arm the timer for the
returned delay and mark "(will retry)"; in both failure cases the warning
event is emitted exactly when the service lookup finds the owning service
(a miss suppresses it; `loopIteration` is total, so the loop never fails);
a successful sync resets the backoff attempt count to 0. -/
theorem loop_retry_and_event (s : Syncer) (found : Bool) :
    (∀ e, s.syncFunc () = some e →
      ((NextRetryDelay s.backoff).1.2 = true →
        (loopIteration s found).1.retryTimer = none ∧
        (loopIteration s found).1.retryMesg = "(will not retry)") ∧
      ((NextRetryDelay s.backoff).1.2 = false →
        (loopIteration s found).1.retryTimer = some (NextRetryDelay s.backoff).1.1 ∧
        (loopIteration s found).1.retryMesg = "(will retry)") ∧
      ((loopIteration s found).1.event.isSome = found) ∧
      ((loopIteration s found).1.event =
        if found then
          some { eventtype := "Warning"
                 reason := "SyncNetworkEndpointGroupFailed"
                 negName := s.negName
                 retryMesg := (loopIteration s found).1.retryMesg
                 err := e }
        else none)) ∧
    (s.syncFunc () = none →
      (loopIteration s found).2.backoff.retryCount = 0 ∧
      (loopIteration s found).1.event = none) := by
  constructor
  · intro e he
    refine ⟨fun hex => ?_, fun hex => ?_, ?_, ?_⟩
    · cases found <;> simp [loopIteration, he, hex]
    · cases found <;> simp [loopIteration, he, hex]
    · cases found <;> simp [loopIteration, he]
    · cases found <;> simp [loopIteration, he]
  · intro he
    simp [loopIteration, he, ResetRetryDelay]

/-- C5 witness: a concrete running syncer whose sync function fails (first
failure: retries remain, timer armed for the minimum delay) and one whose
sync function succeeds (backoff reset). -/
theorem loop_retry_and_event_witness :
    (loopIteration (SetSyncFunc ex1 (fun _ => some "sync error")) true).1.retryMesg
      = "(will retry)" ∧
    (loopIteration (SetSyncFunc ex1 (fun _ => some "sync error")) true).1.retryTimer
      = some 5 ∧
    (loopIteration ex1 false).2.backoff.retryCount = 0 := by
  refine ⟨?_, ?_, ?_⟩
  · exact (((loop_retry_and_event (SetSyncFunc ex1 (fun _ => some "sync error"))
      true).1 "sync error" rfl).2.1 rfl).2
  · have h := (((loop_retry_and_event (SetSyncFunc ex1 (fun _ => some "sync error"))
      true).1 "sync error" rfl).2.1 rfl).1
    rw [h]; rfl
  · exact ((loop_retry_and_event ex1 false).2 rfl).1

/-- C6 counterexample: on the reachable running syncer `ex2`, which has one
buffered signal, the loop does NOT observe the closed channel at its next
wait point after `Stop`: the receive yields `open = true` (the buffered
signal), the loop is still running and `shuttingDown` is still true. -/
theorem stop_next_wait_counterexample :
    Reachable ex2 ∧ ex2.stopped = false ∧ ex2.loopRunning = true ∧
    (loopRecv (Stop ex2)).1 = true ∧
    (loopRecv (Stop ex2)).2.loopRunning = true ∧
    (loopRecv (Stop ex2)).2.shuttingDown = true :=
  ⟨ex2_reachable, rfl, rfl, rfl, rfl, rfl⟩

/-- C6 (amended): after `Stop()` on a running syncer, `IsStopped()` is
immediately true and the loop is still running; at its next wait point the
loop either observes the closed channel directly (empty buffer) or first
consumes the single buffered signal and observes closure at the following
wait point; in both cases it sets `shuttingDown = false`, leaves
`stopped = true`, exits, and `Start()` is again permitted (returns nil). -/
theorem stop_loop_exits (s : Syncer) (h : Reachable s) (hs : s.stopped = false) :
    IsStopped (Stop s) = true ∧ (Stop s).loopRunning = true ∧
    (((loopRecv (Stop s)).1 = false ∧
       (loopRecv (Stop s)).2.stopped = true ∧
       (loopRecv (Stop s)).2.shuttingDown = false ∧
       (loopRecv (Stop s)).2.loopRunning = false ∧
       (Start (loopRecv (Stop s)).2).1 = none) ∨
     ((loopRecv (Stop s)).1 = true ∧
       (loopRecv (loopRecv (Stop s)).2).1 = false ∧
       (loopRecv (loopRecv (Stop s)).2).2.stopped = true ∧
       (loopRecv (loopRecv (Stop s)).2).2.shuttingDown = false ∧
       (loopRecv (loopRecv (Stop s)).2).2.loopRunning = false ∧
       (Start (loopRecv (loopRecv (Stop s)).2).2).1 = none)) := by
  obtain ⟨h1, h2, h3, h4, h5, h6, h7⟩ := reachable_inv h
  obtain ⟨hlr, hsome, hopen⟩ := h3 hs
  cases hch : s.syncCh with
  | none => simp [hch] at hsome
  | some ch =>
    have hpend : ch.pending ≤ 1 := by simpa [chPending, hch] using h6
    refine ⟨by simp [IsStopped, Stop, hs], by simp [Stop, hs, hlr], ?_⟩
    rcases Nat.eq_zero_or_pos ch.pending with hp | hp
    · left
      refine ⟨?_, ?_, ?_, ?_, ?_⟩ <;>
        simp [Stop, hs, hch, loopRecv, hp, Start, IsStopped, IsShuttingDown, init]
    · right
      have hp1 : ch.pending = 1 := by omega
      refine ⟨?_, ?_, ?_, ?_, ?_, ?_⟩ <;>
        simp [Stop, hs, hch, loopRecv, hp1, Start, IsStopped, IsShuttingDown, init]

/-- C6 witness for the amended claim: the concrete running syncer `ex1`
(empty buffer): the first wait point after `Stop` observes closure and the
syncer reaches Idle with `Start` permitted. -/
theorem stop_loop_exits_witness :
    (loopRecv (Stop ex1)).1 = false ∧ (loopRecv (Stop ex1)).2.shuttingDown = false ∧
    (Start (loopRecv (Stop ex1)).2).1 = none := by
  rcases stop_loop_exits ex1 ex1_reachable rfl with ⟨-, -, hcase | hcase⟩
  · exact ⟨hcase.1, hcase.2.2.1, hcase.2.2.2.2⟩
  · cases hcase.1

/-- C7: every reachable syncer state satisfies `shuttingDown = true →
stopped = true`; the converse fails: the fully-stopped-and-exited syncer
`ex5` is reachable with `stopped = true` and `shuttingDown = false`. -/
theorem shuttingDown_implies_stopped :
    (∀ s : Syncer, Reachable s → s.shuttingDown = true → s.stopped = true) ∧
    (∃ s : Syncer, Reachable s ∧ s.stopped = true ∧ s.shuttingDown = false) :=
  ⟨fun _ h hsd => (reachable_inv h).1 hsd, ⟨ex5, ex5_reachable, rfl, rfl⟩⟩

/-- C7 witness: the invariant applied to the concrete shutting-down state
`ex3`. -/
theorem shuttingDown_implies_stopped_witness : ex3.stopped = true :=
  shuttingDown_implies_stopped.1 ex3 ex3_reachable rfl

/-- C8 counterexample: the reachable state `ex5` (loop fully exited) still
carries a non-nil (closed) channel although no loop is running and the
syncer is not shutting down — the field is never reset to nil. -/
theorem syncCh_nonnil_counterexample :
    Reachable ex5 ∧ ex5.syncCh ≠ none ∧
    ¬(ex5.loopRunning = true ∨ ex5.shuttingDown = true) := by
  refine ⟨ex5_reachable, ?_, ?_⟩ <;> decide

/-- C8 (amended): at every reachable state, `syncCh` is non-nil iff `Start`
has ever succeeded; a running or shutting-down loop implies a non-nil
channel, but the channel stays non-nil after the loop exits (it is closed,
never reset to nil). -/
theorem syncCh_iff_everStarted (s : Syncer) (h : Reachable s) :
    (s.syncCh ≠ none ↔ s.everStarted = true) ∧
    ((s.loopRunning = true ∨ s.shuttingDown = true) → s.syncCh ≠ none) := by
  obtain ⟨h1, h2, h3, h4, h5, h6, h7⟩ := reachable_inv h
  cases hch : s.syncCh with
  | none =>
    have hev : s.everStarted = false := by rw [← h7, hch]; rfl
    refine ⟨by simp [hch, hev], ?_⟩
    rintro (hl | hsd)
    · rw [hch] at h4
      exact absurd (h4 hl) (by simp)
    · rw [hch] at h4
      exact absurd (h4 (h2 hsd)) (by simp)
  | some ch =>
    have hev : s.everStarted = true := by rw [← h7, hch]; rfl
    simp [hch, hev]

/-- C8 witness for the amended claim: the concrete started syncer `ex1` has
a non-nil channel. -/
theorem syncCh_iff_everStarted_witness : ex1.syncCh ≠ none :=
  (syncCh_iff_everStarted ex1 ex1_reachable).1.mpr rfl

/-- C9: the constructor's default sync function returns nil, so any syncer
still carrying it (in particular one started before any `SetSyncFunc`) has
every loop-body pass succeed: no retry timer armed, no event emitted, and
the backoff attempt count reset to 0. -/
theorem default_sync_succeeds (key : NegSyncerKey) (negName : String)
    (s : Syncer) (found : Bool)
    (h : s.syncFunc = (newSyncer key negName).syncFunc) :
    s.syncFunc () = none ∧
    (loopIteration s found).1.retryTimer = none ∧
    (loopIteration s found).1.event = none ∧
    (loopIteration s found).2.backoff.retryCount = 0 := by
  have hf : s.syncFunc () = none := by rw [h]; rfl
  refine ⟨hf, ?_, ?_, ?_⟩ <;> simp [loopIteration, hf, ResetRetryDelay]

/-- C9 witness: the concrete syncer `ex1`, started without any
`SetSyncFunc`, still carries the constructor's default sync function. -/
theorem default_sync_succeeds_witness :
    (loopIteration ex1 true).1.event = none ∧
    (loopIteration ex1 true).2.backoff.retryCount = 0 :=
  ⟨(default_sync_succeeds exKey "neg1" ex1 true rfl).2.2.1,
   (default_sync_succeeds exKey "neg1" ex1 true rfl).2.2.2⟩

/-- C10: `SetSyncFunc` assigns only the `syncFunc` field — identity, state
flags, channel, backoff and ghost fields are all unchanged — and, being
unconditional (no state check), it holds for every state, running or not. -/
theorem setSyncFunc_frame (s : Syncer) (f : Unit → Option String) :
    (SetSyncFunc s f).syncFunc = f ∧
    (SetSyncFunc s f).stopped = s.stopped ∧
    (SetSyncFunc s f).shuttingDown = s.shuttingDown ∧
    (SetSyncFunc s f).syncCh = s.syncCh ∧
    (SetSyncFunc s f).backoff = s.backoff ∧
    (SetSyncFunc s f).key = s.key ∧
    (SetSyncFunc s f).negName = s.negName ∧
    (SetSyncFunc s f).loopRunning = s.loopRunning ∧
    (SetSyncFunc s f).everStarted = s.everStarted :=
  ⟨rfl, rfl, rfl, rfl, rfl, rfl, rfl, rfl, rfl⟩

end Syncers
